import Mathlib

/-!
Verification development for the content-generation service.

The Python modules under `app/` are shallowly embedded.  Texts are lists of
characters (`Str`), Python floats are exact rationals (`ℚ`), fallible code
returns `Except`, and the external AI rewrite capability and the external
text-metric libraries (difflib's `SequenceMatcher.ratio`, sklearn's TF-IDF
cosine similarity) are passed in as explicit function parameters.  All string
primitives are written with structural recursion so that every definition
evaluates inside the kernel.
-/

set_option maxRecDepth 200000

namespace GenContent

/-! ## Python string primitives -/

/-- A Python `str`, as its sequence of characters. -/
abbrev Str := List Char

/-- Python `s.lower()`. -/
def pyLower (s : Str) : Str := s.map Char.toLower

/-- Substring containment over character lists. -/
def containsAux (needle : Str) : Str → Bool
  | [] => needle.isEmpty
  | h :: t => needle.isPrefixOf (h :: t) || containsAux needle t

/-- Python `needle in hay` (substring containment). -/
def pyContains (hay needle : Str) : Bool :=
  containsAux needle hay

/-- Auxiliary non-overlapping substring count, scanning left to right as
Python `str.count` does; `skip` is the number of positions still covered by
the previous match. -/
def countSubAux (needle : Str) : Str → Nat → Nat
  | [], _ => 0
  | _ :: t, s + 1 => countSubAux needle t s
  | h :: t, 0 =>
    if needle.isPrefixOf (h :: t) then
      1 + countSubAux needle t (needle.length - 1)
    else
      countSubAux needle t 0

/-- Python `hay.count(needle)` for a non-empty needle. -/
def pyCount (hay needle : Str) : Nat :=
  countSubAux needle hay 0

/-- Split on every character satisfying `p`, keeping empty pieces
(the semantics of splitting on a single separator occurrence). -/
def splitPredAux (p : Char → Bool) : Str → Str → List Str
  | [], acc => [acc.reverse]
  | c :: rest, acc =>
    if p c then acc.reverse :: splitPredAux p rest []
    else splitPredAux p rest (c :: acc)

def splitPred (p : Char → Bool) (s : Str) : List Str :=
  splitPredAux p s []

/-- Python `s.split(sep)` for a non-empty separator; `skip` as in
`countSubAux`. -/
def splitOnAux (sep : Str) : Str → Nat → Str → List Str
  | [], _, acc => [acc.reverse]
  | _ :: t, s + 1, acc => splitOnAux sep t s acc
  | h :: t, 0, acc =>
    if sep.isPrefixOf (h :: t) then
      acc.reverse :: splitOnAux sep t (sep.length - 1) []
    else
      splitOnAux sep t 0 (h :: acc)

def pySplitOn (s sep : Str) : List Str :=
  splitOnAux sep s 0 []

/-- Python `s.split()`: split on whitespace runs, dropping empty pieces. -/
def pyWords (s : Str) : List Str :=
  (splitPred (fun c => c.isWhitespace) s).filter fun w => w ≠ []

/-- Python `s.strip()`. -/
def pyStrip (s : Str) : Str :=
  ((s.dropWhile fun c => c.isWhitespace).reverse.dropWhile
    fun c => c.isWhitespace).reverse

/-- Association-list model of a Python `dict`, with `dict.get` lookup
semantics (first binding wins, like unique dict keys). -/
def dictGet {κ α : Type} [DecidableEq κ] (l : List (κ × α)) (k : κ) : Option α :=
  (l.find? fun p => p.1 = k).map fun p => p.2

/-! ## PersonaManager (`app/ai/persona_manager.py`) -/

structure PersonaConfig where
  tone : String
  style : String
  focus : String
deriving DecidableEq

/-- `settings.PERSONAS` from `app/core/config.py`. -/
def PERSONAS : List (String × PersonaConfig) :=
  [("games", ⟨"casual e entusiasmado", "linguagem gamer, referências técnicas",
              "gameplay, reviews, news"⟩),
   ("cinema", ⟨"analítico e cinematográfico", "crítico especializado, referências artísticas",
               "análises, bastidores, tendências"⟩),
   ("tech", ⟨"informativo e preciso", "técnico mas acessível, foco em inovação",
             "gadgets, tendências, análises técnicas"⟩)]

/-- `PersonaManager.get_persona_config`:
`self.personas.get(persona_name, self.personas.get('games'))`. -/
def get_persona_config (persona_name : String) : Option PersonaConfig :=
  match dictGet PERSONAS persona_name with
  | some c => some c
  | none => dictGet PERSONAS "games"

/-- The category → persona mapping of `suggest_persona_for_category`,
in source insertion order. -/
def category_mapping : List (Str × String) :=
  [(['g','a','m','e','s'], "games"), (['j','o','g','o','s'], "games"),
   (['g','a','m','i','n','g'], "games"), (['e','s','p','o','r','t','s'], "games"),
   (['f','i','l','m','e'], "cinema"), (['f','i','l','m','e','s'], "cinema"),
   (['c','i','n','e','m','a'], "cinema"), (['s','é','r','i','e'], "cinema"),
   (['s','é','r','i','e','s'], "cinema"), (['t','v'], "cinema"),
   (['s','t','r','e','a','m','i','n','g'], "cinema"),
   (['t','e','c','n','o','l','o','g','i','a'], "tech"), (['t','e','c','h'], "tech"),
   (['g','a','d','g','e','t'], "tech"), (['g','a','d','g','e','t','s'], "tech"),
   (['h','a','r','d','w','a','r','e'], "tech"), (['s','o','f','t','w','a','r','e'], "tech"),
   (['i','a'], "tech"), (['a','i'], "tech")]

/-- `PersonaManager.suggest_persona_for_category`: the first mapping key that
is a substring of the lowercased category wins; default `'games'`. -/
def suggest_persona_for_category (category : Str) : String :=
  let category_lower := pyLower category
  match category_mapping.find? (fun p => pyContains category_lower p.1) with
  | some p => p.2
  | none => "games"

/-! ## SEOOptimizer (`app/ai/seo_optimizer.py`) -/

/-- Keyword density used by `calculate_seo_score`:
`sum(content.lower().count(kw.lower()) for kw in keywords[:3]) / total_words`. -/
def seoKeywordDensity (content : Str) (keywords : List Str) : ℚ :=
  (((keywords.take 3).map fun kw => (pyCount (pyLower content) (pyLower kw) : ℚ)).sum)
    / ((pyWords content).length : ℚ)

/-- `SEOOptimizer.calculate_seo_score`.  When `keywords` is non-empty and the
content has no words, the source raises `ZeroDivisionError` in the density
clause; that aborts the whole call, modelled by hoisting it to `Except.error`. -/
def calculate_seo_score (title content meta_description : Str)
    (keywords : List Str) : Except Unit ℚ :=
  let word_count := (pyWords content).length
  if keywords ≠ [] ∧ word_count = 0 then Except.error () else
  let score1 : ℚ := if 30 ≤ title.length ∧ title.length ≤ 60 then 15/100 else 0
  let score2 : ℚ :=
    match keywords with
    | [] => 0
    | k0 :: _ => if pyContains (pyLower title) (pyLower k0) then 5/100 else 0
  let score3 : ℚ :=
    if 120 ≤ meta_description.length ∧ meta_description.length ≤ 160 then 10/100 else 0
  let score4 : ℚ :=
    if keywords ≠ [] ∧
       (keywords.take 2).any (fun kw => pyContains (pyLower meta_description) (pyLower kw))
    then 5/100 else 0
  let score5 : ℚ := if 300 ≤ word_count ∧ word_count ≤ 2000 then 15/100 else 0
  let score6 : ℚ :=
    match keywords with
    | [] => 0
    | _ :: _ =>
      let d := seoKeywordDensity content keywords
      if 2/100 ≤ d ∧ d ≤ 4/100 then 10/100 else if d ≤ 6/100 then 5/100 else 0
  let score7 : ℚ :=
    if pyContains content ['#','#'] ∨ 2 ≤ pyCount content ['\n','\n'] then 10/100 else 0
  let score8 : ℚ := if 3 ≤ (pySplitOn content ['\n','\n']).length then 5/100 else 0
  let score9 : ℚ :=
    if pyContains content ['['] ∧ pyContains content [']','('] then 10/100 else 0
  Except.ok (min (score1 + score2 + score3 + score4 + score5
                  + score6 + score7 + score8 + score9) 1)

/-! ## SimilarityChecker (`app/ai/similarity_checker.py`)

The two library metrics — difflib's `SequenceMatcher(None, a, b).ratio()` and
sklearn's TF-IDF cosine similarity — are external collaborators; they enter as
function parameters returning `Except Unit ℚ` (`Except.error` models the
library call raising).  A text argument of `none` models Python `None` being
passed where a `str` is expected. -/

/-- Characters kept by `_preprocess_text`'s character class
`[^\w\sáàâãéèêíìîóòôõúùûç]` (word characters, whitespace, listed accents). -/
def isKeptChar (c : Char) : Bool :=
  c.isAlphanum || c = '_' || c.isWhitespace ||
    (['á','à','â','ã','é','è','ê','í','ì','î','ó','ò','ô','õ','ú','ù','û','ç']).contains c

/-- Join words with single spaces. -/
def joinWithSpace : List Str → Str
  | [] => []
  | [w] => w
  | w :: ws => w ++ ' ' :: joinWithSpace ws

/-- `SimilarityChecker._preprocess_text`: lowercase, replace characters outside
the kept class with spaces, collapse whitespace runs, strip.  Collapse+strip is
realised by re-joining the whitespace-separated words with single spaces. -/
def preprocess_text (text : Str) : Str :=
  joinWithSpace (pyWords ((pyLower text).map fun c => if isKeptChar c then c else ' '))

/-- `SimilarityChecker._extract_sentences`: split on sentence-ending
punctuation, strip, keep pieces longer than 10 characters. -/
def extract_sentences (text : Str) : List Str :=
  ((splitPred (fun c => c = '.' || c = '!' || c = '?') text).map pyStrip).filter
    fun s => 10 < s.length

/-- The nested loop of `_calculate_phrase_similarity`, returning
(similar_count, total_comparisons); a failing library call aborts the loop
(the exception escapes to the surrounding handler). -/
def phrase_loop (seqMetric : Str → Str → Except Unit ℚ) :
    List (Str × Str) → Except Unit (Nat × Nat)
  | [] => Except.ok (0, 0)
  | p :: rest =>
    if 20 < p.1.length ∧ 20 < p.2.length then
      match seqMetric (pyLower p.1) (pyLower p.2) with
      | Except.error e => Except.error e
      | Except.ok r =>
        match phrase_loop seqMetric rest with
        | Except.error e => Except.error e
        | Except.ok (s, t) => Except.ok ((if 8/10 < r then s + 1 else s), t + 1)
    else phrase_loop seqMetric rest

/-- `SimilarityChecker._calculate_phrase_similarity` (works on the raw input
texts; its own `except` returns 0.0). -/
def calculate_phrase_similarity (seqMetric : Str → Str → Except Unit ℚ)
    (text1 text2 : Str) : ℚ :=
  let sentences1 := extract_sentences text1
  let sentences2 := extract_sentences text2
  if sentences1.isEmpty || sentences2.isEmpty then 0
  else
    match phrase_loop seqMetric (sentences1.flatMap fun a => sentences2.map fun b => (a, b)) with
    | Except.error _ => 0
    | Except.ok (_, 0) => 0
    | Except.ok (similar, total + 1) => (similar : ℚ) / (total + 1 : ℚ)

/-- A component wrapper's `except: return 0.0`
(`_calculate_sequence_similarity`, `_calculate_tfidf_similarity`). -/
def componentOrZero (e : Except Unit ℚ) : ℚ :=
  match e with
  | Except.ok v => v
  | Except.error _ => 0

/-- `SimilarityChecker.calculate_similarity`: weighted combination
0.3·sequence + 0.4·tfidf + 0.3·phrase of the guarded components; the outer
`except` returns the neutral 0.5.  Inside the `try`, only preprocessing a
non-string (`none`) raises. -/
def calculate_similarity (seqMetric tfidfMetric : Str → Str → Except Unit ℚ)
    (text1 text2 : Option Str) : ℚ :=
  match text1, text2 with
  | some t1, some t2 =>
    let clean1 := preprocess_text t1
    let clean2 := preprocess_text t2
    let sequence_similarity := componentOrZero (seqMetric clean1 clean2)
    let tfidf_similarity := componentOrZero (tfidfMetric clean1 clean2)
    let phrase_similarity := calculate_phrase_similarity seqMetric t1 t2
    sequence_similarity * (3/10) + tfidf_similarity * (4/10) + phrase_similarity * (3/10)
  | _, _ => 1/2

/-! ## RelevanceScorer (`app/content/relevance_scorer.py`) -/

/-- `_load_trending_keywords`. -/
def trending_keywords : List (Str × ℚ) :=
  [(("gta 6").data, 95/100), (("baldurs gate 3").data, 90/100),
   (("cyberpunk").data, 85/100), (("fortnite").data, 80/100),
   (("valorant").data, 75/100),
   (("marvel").data, 85/100), (("netflix").data, 80/100),
   (("disney plus").data, 75/100), (("stranger things").data, 70/100),
   (("inteligência artificial").data, 95/100), (("chatgpt").data, 90/100),
   (("iphone 15").data, 85/100), (("tesla").data, 80/100),
   (("one piece").data, 90/100), (("demon slayer").data, 85/100),
   (("attack on titan").data, 80/100)]

/-- `_load_seasonal_keywords`. -/
def seasonal_keywords : List (String × List (Str × ℚ)) :=
  [("dezembro", [(("natal").data, 9/10), (("ano novo").data, 85/100),
                 (("férias").data, 8/10), (("games natal").data, 85/100)]),
   ("janeiro", [(("lançamentos").data, 8/10), (("preview").data, 75/100),
                (("ces").data, 9/10)]),
   ("junho", [(("e3").data, 95/100), (("summer game fest").data, 9/10),
              (("nintendo direct").data, 85/100)]),
   ("outubro", [(("halloween").data, 85/100), (("horror games").data, 9/10),
                (("filmes terror").data, 85/100)])]

/-- `_load_category_weights`. -/
def category_weights : List (Str × ℚ) :=
  [(("games").data, 1), (("filmes").data, 9/10), (("series").data, 85/100),
   (("tecnologia").data, 8/10), (("hqs").data, 75/100), (("cultura-pop").data, 7/10)]

/-- The `engaging_words` table of `_estimate_engagement_score`. -/
def engaging_words : List (Str × ℚ) :=
  [(("exclusivo").data, 9/10), (("revelado").data, 8/10), (("confirmado").data, 8/10),
   (("oficial").data, 7/10), (("trailer").data, 8/10), (("gameplay").data, 8/10),
   (("review").data, 7/10), (("novidade").data, 6/10), (("lançamento").data, 7/10),
   (("breaking").data, 9/10), (("primeiro").data, 6/10), (("último").data, 6/10),
   (("melhor").data, 5/10), (("pior").data, 5/10), (("top").data, 6/10),
   (("lista").data, 5/10)]

/-- `_calculate_keyword_score`: average matched trending weight, default 0.3,
capped at 1. -/
def calculate_keyword_score (text : Str) : ℚ :=
  let matched := trending_keywords.filter fun kw => pyContains text (pyLower kw.1)
  let score : ℚ :=
    if matched.length ≠ 0 then (matched.map fun kw => kw.2).sum / (matched.length : ℚ)
    else 3/10
  min score 1

/-- A `datetime` value: an absolute timestamp in hours plus its calendar
month (1–12), which is all the scorer reads from it. -/
structure PyDateTime where
  epochHours : ℚ
  month : Nat
deriving DecidableEq

/-- `date.strftime('%B').lower()`. -/
def englishMonthName (m : Nat) : String :=
  match m with
  | 1 => "january" | 2 => "february" | 3 => "march" | 4 => "april"
  | 5 => "may" | 6 => "june" | 7 => "july" | 8 => "august"
  | 9 => "september" | 10 => "october" | 11 => "november" | 12 => "december"
  | _ => ""

/-- The English→Portuguese month-name dictionary of
`_calculate_seasonal_score` (`month_names.get(month_name, month_name)`). -/
def portugueseMonth (m : Nat) : String :=
  let name := englishMonthName m
  (dictGet [("january", "janeiro"), ("february", "fevereiro"), ("march", "março"),
            ("april", "abril"), ("may", "maio"), ("june", "junho"),
            ("july", "julho"), ("august", "agosto"), ("september", "setembro"),
            ("october", "outubro"), ("november", "novembro"), ("december", "dezembro")]
    name).getD name

/-- `_calculate_seasonal_score`. -/
def calculate_seasonal_score (text : Str) (date : PyDateTime) : ℚ :=
  match dictGet seasonal_keywords (portugueseMonth date.month) with
  | none => 1/2
  | some table =>
    if table.isEmpty then 1/2
    else
      let matched := table.filter fun kw => pyContains text (pyLower kw.1)
      if matched.length ≠ 0 then min ((matched.map fun kw => kw.2).sum / (matched.length : ℚ)) 1
      else 2/5

/-- `_calculate_category_score`: `category.lower().replace(' ', '-')` looked up
with default 0.5. -/
def calculate_category_score (category : Str) : ℚ :=
  (dictGet category_weights ((pyLower category).map fun c => if c = ' ' then '-' else c)).getD (1/2)

/-- `_calculate_freshness_score`, as a function of
`age_hours = (now - date).total_seconds() / 3600`. -/
def calculate_freshness_score (age_hours : ℚ) : ℚ :=
  if age_hours ≤ 1 then 1
  else if age_hours ≤ 6 then 9/10
  else if age_hours ≤ 24 then 8/10
  else if age_hours ≤ 72 then 7/10
  else if age_hours ≤ 168 then 1/2
  else 3/10

/-- `_estimate_engagement_score` (the `category` argument is unused in the
source body). -/
def estimate_engagement_score (title : Str) (category : Str) : ℚ :=
  let title_lower := pyLower title
  let base : ℚ := 2/5
  let withWords :=
    base + ((engaging_words.filter fun w => pyContains title_lower w.1).map
              fun w => w.2 * (1/10)).sum
  let withLength :=
    if 40 ≤ title.length ∧ title.length ≤ 70 then withWords + 1/10 else withWords
  let withDigits :=
    if title.any Char.isDigit then withLength + 5/100 else withLength
  min withDigits 1

/-- A `published_date` argument as the scorer may receive it: a real datetime,
or a raw string timestamp (on which the date arithmetic raises `TypeError`). -/
inductive PyDateLike where
  | dt (d : PyDateTime)
  | str (s : Str)
deriving DecidableEq

/-- Python truthiness of a `published_date` argument, as tested by
`if not published_date:` — `None` and the empty string are falsy and get
replaced with `datetime.now()`; datetimes and non-empty strings are truthy. -/
def pyDateFalsy : Option PyDateLike → Bool
  | none => true
  | some (PyDateLike.str s) => s.isEmpty
  | some (PyDateLike.dt _) => false

/-- The body of `RelevanceScorer.calculate_relevance` (everything inside its
`try`).  A falsy `published_date` (`None` or an empty string) is replaced
with `now`; a non-empty string `published_date` makes `strftime`/date
subtraction raise. -/
def calculate_relevance_body (title content category : Str)
    (published_date : Option PyDateLike) (now : PyDateTime) : Except Unit ℚ :=
  match (if pyDateFalsy published_date then PyDateLike.dt now
         else published_date.getD (PyDateLike.dt now)) with
  | PyDateLike.str _ => Except.error ()
  | PyDateLike.dt d =>
    let full_text := pyLower (title ++ ' ' :: content)
    Except.ok (min
      (calculate_keyword_score full_text * (3/10)
        + calculate_seasonal_score full_text d * (2/10)
        + calculate_category_score category * (2/10)
        + calculate_freshness_score (now.epochHours - d.epochHours) * (15/100)
        + estimate_engagement_score title category * (15/100)) 1)

/-- `RelevanceScorer.calculate_relevance`: the surrounding `except` returns the
neutral 0.5. -/
def calculate_relevance (title content category : Str)
    (published_date : Option PyDateLike) (now : PyDateTime) : ℚ :=
  match calculate_relevance_body title content category published_date now with
  | Except.ok v => v
  | Except.error _ => 1/2

/-! ## ContentRewriter (`app/ai/content_rewriter.py`)

The AI capability is a parameter `capability : Option (Nat → Option String)`:
`none` when neither client is configured; otherwise the selected client
(Anthropic if configured, else OpenAI — fixed at construction, so the same
client serves both attempts), mapping the index of the call to its response
(`none` models the client helper catching an API error and returning
`None`). -/

structure RewriteOutput where
  rewritten_content : Str
  similarity_score : ℚ
  persona_used : String
  word_count : Nat
  is_original : Bool
deriving DecidableEq

/-- `ContentRewriter.rewrite_content`.  Returns the outcome together with the
number of capability invocations made.  `Except.error` models the `except`
clause re-raising (`raise`): a missing capability raises `ValueError`, a falsy
first response raises `ValueError`, and a `None` second response raises
`AttributeError` when `rewritten_content.split()` is evaluated. -/
def rewrite_content (capability : Option (Nat → Option Str))
    (similarity : Str → Str → ℚ) (threshold : ℚ)
    (original_content : Str) (persona : String) : Except String RewriteOutput × Nat :=
  match capability with
  | none => (Except.error "Nenhum serviço de IA configurado", 0)
  | some generate =>
    match generate 0 with
    | none => (Except.error "Falha na reescrita do conteúdo", 1)
    | some first =>
      if first.isEmpty then (Except.error "Falha na reescrita do conteúdo", 1)
      else
        let similarity_score := similarity original_content first
        if threshold < similarity_score then
          match generate 1 with
          | none => (Except.error "AttributeError", 2)
          | some second =>
            let rescore := similarity original_content second
            (Except.ok ⟨second, rescore, persona, (pyWords second).length,
                        decide (rescore < threshold)⟩, 2)
        else
          (Except.ok ⟨first, similarity_score, persona, (pyWords first).length,
                      decide (similarity_score < threshold)⟩, 1)

/-! ## ContentGenerator composite score (`app/content/content_generator.py`) -/

/-- `ContentGenerator._calculate_final_score`: fixed weights 0.4/0.3/0.2/0.1
over relevance, derived quality, SEO and originality (1 − similarity),
clamped to 1. -/
def calculate_final_score (relevance_score : ℚ) (word_count : Nat)
    (similarity_score seo_score : ℚ) : ℚ :=
  let quality_score := min ((word_count : ℚ) / 500) 1 * (7/10) + 3/10
  let originality_score := 1 - similarity_score
  min (relevance_score * (4/10) + quality_score * (3/10)
       + seo_score * (2/10) + originality_score * (1/10)) 1

/-! ## StatelessContentProcessor (`app/content/stateless_processor.py`) -/

/-- A raw scraped item, as read by `_process_single_article`
(`item.get("title", "")`, `item.get("content", item.get("summary", ""))`). -/
structure ScrapedItem where
  title : Str
  content : Str
deriving DecidableEq

/-- `StatelessContentProcessor._process_single_article`.  The first statement
of its `try` block is
`self.content_rewriter.rewrite_content(title=…, content=…, persona=…)`, but
`ContentRewriter.rewrite_content` declares the parameters
`(original_content, persona, category, target_length)` — there is no `title`
or `content` keyword — so every call raises `TypeError` immediately.  (Were
it to survive, the body would still read the keys
`title`/`content`/`summary`/`keywords`/`meta_description` that the rewriter
never returns, and would multiply the un-awaited coroutine returned by the
`async` `calculate_relevance` by 0.6.)  The surrounding `except Exception`
logs and returns `None`, so the function is observationally the constant
`None`; no final score is ever attached. -/
def process_single_article (item : ScrapedItem) (persona : String)
    (category : Str) : Option ℚ :=
  none

/-- The final scores carried by the items a batch operation emits: the
non-`None` results of `_process_single_article`, kept when they pass the
`min_score` admission gate.  (The enclosing batch loops cannot even start in
the source — the module imports the nonexistent `app.scrapers.scraper_factory`
— but per-item emission is modelled faithfully regardless.) -/
def batch_emitted_final_scores (items : List ScrapedItem) (persona : String)
    (category : Str) (min_score : ℚ) : List ℚ :=
  (items.filterMap fun item => process_single_article item persona category).filter
    fun s => min_score ≤ s

/-! ## Concrete example inputs -/

/-- `(List.replicate n l).flatten`. -/
def repList (n : Nat) (l : Str) : Str := (List.replicate n l).flatten

/-- A 45-character title containing the top keyword `alpha`. -/
def c2Title : Str := ("alpha ").data ++ List.replicate 39 'x'

/-- A 140-character meta-description containing the keyword `beta`. -/
def c2Meta : Str := ("beta ").data ++ List.replicate 135 'y'

/-- A 500-word content with subtitle marker, markdown link, three paragraphs
and fifteen occurrences of `alpha` (density 15/500 = 0.03). -/
def c2Content : Str :=
  ("## alpha\n\n[alpha](x)").data ++ repList 13 (" alpha").data
    ++ ("\n\n").data ++ ("w").data ++ repList 483 (" w").data

/-- A model of a library similarity metric that is 1 exactly on identical
inputs (the behaviour of `SequenceMatcher.ratio` and of TF-IDF cosine
similarity on the diagonal). -/
def eqMetric : Str → Str → Except Unit ℚ :=
  fun a b => Except.ok (if a = b then 1 else 0)

/-- A single-sentence text whose sentence is exactly 20 characters long, so
the phrase metric has no qualifying (>20 characters) sentence pair. -/
def c4Text : Str := ("hello there everyone").data

/-- A two-response capability: a first rewrite, then a different second one. -/
def c3Capability : Nat → Option Str :=
  fun n => if n = 0 then some ("texto reescrito uma vez").data
           else some ("texto completamente novo").data

/-- A similarity oracle that judges every rewrite maximally similar. -/
def alwaysOne : Str → Str → ℚ := fun _ _ => 1

/-! ## Helper lemmas -/

theorem dictGet_eq_some_mem {κ α : Type} [DecidableEq κ] {l : List (κ × α)}
    {k : κ} {v : α} (h : dictGet l k = some v) : ∃ p ∈ l, p.2 = v := by
  unfold dictGet at h
  rcases hf : l.find? fun p => p.1 = k with - | p
  · rw [hf] at h; exact Option.noConfusion h
  · rw [hf] at h
    cases h
    exact ⟨p, List.mem_of_find?_eq_some hf, rfl⟩

/-! ## C10: unknown personas and categories resolve to the games default -/

/-- C10: a persona name absent from the persona table resolves to the
`games` configuration, and a category containing no mapping key suggests the
`games` persona. -/
theorem persona_unknown_defaults_to_games (persona_name : String) (category : Str)
    (hp : dictGet PERSONAS persona_name = none)
    (hc : ∀ p ∈ category_mapping, pyContains (pyLower category) p.1 = false) :
    get_persona_config persona_name =
      some ⟨"casual e entusiasmado", "linguagem gamer, referências técnicas",
            "gameplay, reviews, news"⟩
    ∧ suggest_persona_for_category category = "games" := by
  constructor
  · rw [get_persona_config, hp]; decide
  · rw [suggest_persona_for_category]
    have : category_mapping.find? (fun p => pyContains (pyLower category) p.1) = none :=
      List.find?_eq_none.2 fun p hpmem => by simp [hc p hpmem]
    simp only [this]

/-- Witness for C10 at `persona_name = "editor"`, `category = "zzz"`. -/
theorem persona_unknown_defaults_to_games_witness :
    get_persona_config "editor" =
      some ⟨"casual e entusiasmado", "linguagem gamer, referências técnicas",
            "gameplay, reviews, news"⟩
    ∧ suggest_persona_for_category ("zzz").data = "games" :=
  persona_unknown_defaults_to_games "editor" ("zzz").data (by decide) (by decide)

/-! ## C2: the SEO rubric at full marks -/

/-- When every rubric clause of `calculate_seo_score` is satisfied, the score
is the sum of all the clause increments,
0.15+0.05+0.10+0.05+0.15+0.10+0.10+0.05+0.10 = 0.85. -/
theorem seo_score_all_clauses (title content meta : Str) (k0 : Str) (ks : List Str)
    (h1 : 30 ≤ title.length ∧ title.length ≤ 60)
    (h2 : pyContains (pyLower title) (pyLower k0) = true)
    (h3 : 120 ≤ meta.length ∧ meta.length ≤ 160)
    (h4 : ((k0 :: ks).take 2).any (fun kw => pyContains (pyLower meta) (pyLower kw)) = true)
    (h5 : 300 ≤ (pyWords content).length ∧ (pyWords content).length ≤ 2000)
    (h6 : 2/100 ≤ seoKeywordDensity content (k0 :: ks)
          ∧ seoKeywordDensity content (k0 :: ks) ≤ 4/100)
    (h7 : (pyContains content ['#','#'] = true) ∨ 2 ≤ pyCount content ['\n','\n'])
    (h8 : 3 ≤ (pySplitOn content ['\n','\n']).length)
    (h9 : pyContains content ['['] = true ∧ pyContains content [']','('] = true) :
    calculate_seo_score title content meta (k0 :: ks) = Except.ok (17/20) := by
  have hw0 : ¬(k0 :: ks ≠ [] ∧ (pyWords content).length = 0) := by
    rintro ⟨-, hz⟩; omega
  simp only [calculate_seo_score]
  rw [if_neg hw0]
  simp only [h1, h2, h3, h4, h6, h7, h8, h9.1, h9.2, h5, and_true, true_and,
             and_self, if_true, eq_self_iff_true, ne_eq, reduceCtorEq,
             not_false_iff, List.any_eq_true]
  norm_num [min_def]

/-- C2 (amended): on an input satisfying every rubric clause — title of 45
characters containing the top keyword, 140-character meta-description with a
top-2 keyword, 500 words with density 0.03, subtitle markers, three
paragraphs and a markdown link — the SEO score is exactly 0.85, the true sum
of the rubric increments, not 1.0. -/
theorem seo_full_marks_is_085 (title content meta : Str) (k0 : Str) (ks : List Str)
    (h1 : 30 ≤ title.length ∧ title.length ≤ 60)
    (h2 : pyContains (pyLower title) (pyLower k0) = true)
    (h3 : 120 ≤ meta.length ∧ meta.length ≤ 160)
    (h4 : ((k0 :: ks).take 2).any (fun kw => pyContains (pyLower meta) (pyLower kw)) = true)
    (h5 : 300 ≤ (pyWords content).length ∧ (pyWords content).length ≤ 2000)
    (h6 : 2/100 ≤ seoKeywordDensity content (k0 :: ks)
          ∧ seoKeywordDensity content (k0 :: ks) ≤ 4/100)
    (h7 : (pyContains content ['#','#'] = true) ∨ 2 ≤ pyCount content ['\n','\n'])
    (h8 : 3 ≤ (pySplitOn content ['\n','\n']).length)
    (h9 : pyContains content ['['] = true ∧ pyContains content [']','('] = true) :
    calculate_seo_score title content meta (k0 :: ks) = Except.ok (17/20)
    ∧ (17/20 : ℚ) ≠ 1 :=
  ⟨seo_score_all_clauses title content meta k0 ks h1 h2 h3 h4 h5 h6 h7 h8 h9,
   by norm_num⟩

/-- Witness for C2 (amended) at the concrete full-marks input. -/
theorem seo_full_marks_is_085_witness :
    calculate_seo_score c2Title c2Content c2Meta [("alpha").data, ("beta").data]
      = Except.ok (17/20)
    ∧ (17/20 : ℚ) ≠ 1 := by
  have hd : seoKeywordDensity c2Content [("alpha").data, ("beta").data] = 3/100 := by
    have ha : pyCount (pyLower c2Content) (pyLower ("alpha").data) = 15 := by decide
    have hb : pyCount (pyLower c2Content) (pyLower ("beta").data) = 0 := by decide
    have hw : (pyWords c2Content).length = 500 := by decide
    simp only [seoKeywordDensity, List.take, List.map, ha, hb, hw,
               List.sum_cons, List.sum_nil]
    norm_num
  exact seo_full_marks_is_085 c2Title c2Content c2Meta ("alpha").data [("beta").data]
    (by decide) (by decide) (by decide) (by decide) (by decide)
    (by rw [hd]; constructor <;> norm_num) (by left; decide) (by decide)
    ⟨by decide, by decide⟩

/-- C2 counterexample: the concrete full-marks input satisfies every rubric
clause, yet the SEO score is 0.85, not 1.0 as claimed. -/
theorem seo_full_marks_counterexample :
    (30 ≤ c2Title.length ∧ c2Title.length ≤ 60)
    ∧ pyContains (pyLower c2Title) (pyLower ("alpha").data) = true
    ∧ (120 ≤ c2Meta.length ∧ c2Meta.length ≤ 160)
    ∧ (([("alpha").data, ("beta").data].take 2).any
        (fun kw => pyContains (pyLower c2Meta) (pyLower kw)) = true)
    ∧ (pyWords c2Content).length = 500
    ∧ seoKeywordDensity c2Content [("alpha").data, ("beta").data] = 3/100
    ∧ pyContains c2Content ['#','#'] = true
    ∧ 3 ≤ (pySplitOn c2Content ['\n','\n']).length
    ∧ (pyContains c2Content ['['] = true ∧ pyContains c2Content [']','('] = true)
    ∧ calculate_seo_score c2Title c2Content c2Meta [("alpha").data, ("beta").data]
        = Except.ok (17/20)
    ∧ (Except.ok ((17 : ℚ)/20) : Except Unit ℚ) ≠ Except.ok ((1 : ℚ)) := by
  have hd : seoKeywordDensity c2Content [("alpha").data, ("beta").data] = 3/100 := by
    have ha : pyCount (pyLower c2Content) (pyLower ("alpha").data) = 15 := by decide
    have hb : pyCount (pyLower c2Content) (pyLower ("beta").data) = 0 := by decide
    have hw : (pyWords c2Content).length = 500 := by decide
    simp only [seoKeywordDensity, List.take, List.map, ha, hb, hw,
               List.sum_cons, List.sum_nil]
    norm_num
  refine ⟨by decide, by decide, by decide, by decide, by decide, hd,
          by decide, by decide, ⟨by decide, by decide⟩, ?_, ?_⟩
  · exact seo_score_all_clauses c2Title c2Content c2Meta ("alpha").data [("beta").data]
      (by decide) (by decide) (by decide) (by decide) (by decide)
      (by rw [hd]; constructor <;> norm_num) (by left; decide) (by decide)
      ⟨by decide, by decide⟩
  · intro h
    have := Except.ok.inj h
    norm_num at this

/-! ## C4: similarity of a text with itself -/

theorem phrase_loop_counts_le (seqMetric : Str → Str → Except Unit ℚ) :
    ∀ (l : List (Str × Str)) (s t : Nat),
      phrase_loop seqMetric l = Except.ok (s, t) → s ≤ t := by
  intro l
  induction l with
  | nil => intro s t h; simp only [phrase_loop] at h; cases h; exact Nat.le_refl 0
  | cons p rest ih =>
    intro s t h
    simp only [phrase_loop] at h
    split at h
    · split at h
      · exact absurd h (by simp)
      · split at h
        · exact absurd h (by simp)
        · rename_i r hm s' t' hr
          rw [Except.ok.injEq, Prod.mk.injEq] at h
          obtain ⟨hs, ht⟩ := h
          have := ih s' t' hr
          subst ht
          split at hs <;> omega
    · exact ih s t h

theorem phrase_similarity_mem_unit (seqMetric : Str → Str → Except Unit ℚ)
    (text1 text2 : Str) :
    0 ≤ calculate_phrase_similarity seqMetric text1 text2
    ∧ calculate_phrase_similarity seqMetric text1 text2 ≤ 1 := by
  simp only [calculate_phrase_similarity]
  split
  · norm_num
  · split
    · norm_num
    · norm_num
    · rename_i similar total hloop
      have hst := phrase_loop_counts_le seqMetric _ _ _ hloop
      constructor
      · positivity
      · rw [div_le_one (by positivity)]
        exact_mod_cast hst

/-- With library metrics that are 1 on identical inputs, the similarity of a
text with itself is 0.3 + 0.4 + 0.3·phraseComponent. -/
theorem similarity_self_eq (seqMetric tfidfMetric : Str → Str → Except Unit ℚ)
    (hseq : ∀ x, seqMetric x x = Except.ok 1)
    (htf : ∀ x, tfidfMetric x x = Except.ok 1) (T : Str) :
    calculate_similarity seqMetric tfidfMetric (some T) (some T)
      = 7/10 + calculate_phrase_similarity seqMetric T T * (3/10) := by
  simp only [calculate_similarity, hseq (preprocess_text T), htf (preprocess_text T),
             componentOrZero]
  ring

/-- C4 (amended): for library sequence/lexical metrics that return 1 on
identical inputs, `similarity(T, T)` equals 0.7 + 0.3·phraseComponent(T, T);
it is at most 1 and equals 1.0 exactly when the phrase component of the pair
(T, T) is 1 — texts with no qualifying (>20-character) sentence pair get
phrase component 0 and self-similarity 0.7, not 1.0. -/
theorem similarity_self_amended (seqMetric tfidfMetric : Str → Str → Except Unit ℚ)
    (hseq : ∀ x, seqMetric x x = Except.ok 1)
    (htf : ∀ x, tfidfMetric x x = Except.ok 1) (T : Str) :
    calculate_similarity seqMetric tfidfMetric (some T) (some T)
      = 7/10 + calculate_phrase_similarity seqMetric T T * (3/10)
    ∧ calculate_similarity seqMetric tfidfMetric (some T) (some T) ≤ 1
    ∧ (calculate_similarity seqMetric tfidfMetric (some T) (some T) = 1
        ↔ calculate_phrase_similarity seqMetric T T = 1) := by
  have heq := similarity_self_eq seqMetric tfidfMetric hseq htf T
  have hmem := phrase_similarity_mem_unit seqMetric T T
  refine ⟨heq, by rw [heq]; linarith [hmem.2], ?_⟩
  rw [heq]
  constructor
  · intro h; linarith
  · intro h; rw [h]; norm_num

/-- Witness for C4 (amended) at `T = "hello there everyone"` and the
diagonal-1 metric model. -/
theorem similarity_self_amended_witness :
    calculate_similarity eqMetric eqMetric (some c4Text) (some c4Text)
      = 7/10 + calculate_phrase_similarity eqMetric c4Text c4Text * (3/10)
    ∧ calculate_similarity eqMetric eqMetric (some c4Text) (some c4Text) ≤ 1
    ∧ (calculate_similarity eqMetric eqMetric (some c4Text) (some c4Text) = 1
        ↔ calculate_phrase_similarity eqMetric c4Text c4Text = 1) :=
  similarity_self_amended eqMetric eqMetric
    (fun x => by simp [eqMetric]) (fun x => by simp [eqMetric]) c4Text

/-- C4 counterexample: for the 20-character single-sentence text
`"hello there everyone"` (no sentence pair longer than 20 characters, so the
phrase component is 0), self-similarity is 0.7, not 1.0 — far outside any
floating-point tolerance. -/
theorem similarity_self_counterexample :
    calculate_similarity eqMetric eqMetric (some c4Text) (some c4Text) = 7/10
    ∧ ((7 : ℚ)/10) ≠ 1 := by
  constructor
  · have hph : calculate_phrase_similarity eqMetric c4Text c4Text = 0 := by rfl
    have heq := similarity_self_eq eqMetric eqMetric
      (fun x => by simp [eqMetric]) (fun x => by simp [eqMetric]) c4Text
    rw [heq, hph]
    norm_num
  · norm_num

/-! ## C7: neutral defaults on internal computation failure -/

/-- C7: a total computation failure inside `calculate_similarity` (here: the
`TypeError` raised by preprocessing a `None` text) yields the neutral score
0.5; a single failing component (here: the TF-IDF library call raising)
contributes 0 while the rest of the score is still computed; and a
computation failure inside `calculate_relevance` (here: the date arithmetic
raising on a non-empty string `published_date` — the empty string is falsy,
is replaced with `now` by `if not published_date:` and raises nothing)
yields the neutral score 0.5.  In all cases the Lean functions return a
plain value: no error escapes, even though `calculate_relevance_body` did
fail. -/
theorem neutral_defaults_on_failure (seqMetric tfidfMetric : Str → Str → Except Unit ℚ)
    (t1 t2 : Str) (s : Str) (title content category : Str) (now : PyDateTime)
    (hs : s ≠ [])
    (htf : tfidfMetric (preprocess_text t1) (preprocess_text t2) = Except.error ()) :
    calculate_similarity seqMetric tfidfMetric none (some t2) = 1/2
    ∧ calculate_similarity seqMetric tfidfMetric (some t1) none = 1/2
    ∧ calculate_similarity seqMetric tfidfMetric none none = 1/2
    ∧ calculate_similarity seqMetric tfidfMetric (some t1) (some t2)
        = componentOrZero (seqMetric (preprocess_text t1) (preprocess_text t2)) * (3/10)
          + 0 * (4/10) + calculate_phrase_similarity seqMetric t1 t2 * (3/10)
    ∧ calculate_relevance title content category (some (PyDateLike.str s)) now = 1/2
    ∧ calculate_relevance_body title content category (some (PyDateLike.str s)) now
        = Except.error ()
    ∧ calculate_relevance_body title content category (some (PyDateLike.str [])) now
        = calculate_relevance_body title content category none now := by
  obtain ⟨c, cs, rfl⟩ : ∃ c cs, s = c :: cs := by
    cases s with
    | nil => exact absurd rfl hs
    | cons c cs => exact ⟨c, cs, rfl⟩
  refine ⟨rfl, rfl, rfl, ?_, rfl, rfl, rfl⟩
  simp only [calculate_similarity, htf, componentOrZero]

/-- Witness for C7 with the diagonal metric, a failing TF-IDF call, and a
non-empty string timestamp. -/
theorem neutral_defaults_on_failure_witness :
    calculate_similarity eqMetric (fun _ _ => Except.error ()) none (some ("a").data) = 1/2
    ∧ calculate_similarity eqMetric (fun _ _ => Except.error ()) (some ("a").data) none = 1/2
    ∧ calculate_similarity eqMetric (fun _ _ => Except.error ()) none none = 1/2
    ∧ calculate_similarity eqMetric (fun _ _ => Except.error ())
        (some ("a").data) (some ("b").data)
        = componentOrZero (eqMetric (preprocess_text ("a").data) (preprocess_text ("b").data))
            * (3/10)
          + 0 * (4/10)
          + calculate_phrase_similarity eqMetric ("a").data ("b").data * (3/10)
    ∧ calculate_relevance ("t").data ("c").data ("games").data
        (some (PyDateLike.str ("2024-01-01").data)) ⟨0, 1⟩ = 1/2
    ∧ calculate_relevance_body ("t").data ("c").data ("games").data
        (some (PyDateLike.str ("2024-01-01").data)) ⟨0, 1⟩ = Except.error ()
    ∧ calculate_relevance_body ("t").data ("c").data ("games").data
        (some (PyDateLike.str [])) ⟨0, 1⟩
        = calculate_relevance_body ("t").data ("c").data ("games").data none ⟨0, 1⟩ :=
  neutral_defaults_on_failure eqMetric (fun _ _ => Except.error ())
    ("a").data ("b").data ("2024-01-01").data ("t").data ("c").data ("games").data
    ⟨0, 1⟩ (by decide) rfl

/-! ## C3: the rewrite retry invariant -/

/-- C3: when the first attempt's similarity (against the original) is at most
the threshold, exactly one capability call is made and its result is
returned; when it exceeds the threshold, exactly two calls are made (and
never more — the call count is 2 even if the second call fails), the second
attempt's similarity is recomputed against the pristine original, and the
result carries `is_original = (final similarity < threshold)`. -/
theorem rewrite_retry_invariant (generate : Nat → Option Str)
    (similarity : Str → Str → ℚ) (threshold : ℚ) (original : Str) (persona : String)
    (first : Str) (h0 : generate 0 = some first) (hne : ¬ first.isEmpty) :
    (similarity original first ≤ threshold →
      rewrite_content (some generate) similarity threshold original persona
        = (Except.ok ⟨first, similarity original first, persona, (pyWords first).length,
            decide (similarity original first < threshold)⟩, 1))
    ∧ (threshold < similarity original first →
        (rewrite_content (some generate) similarity threshold original persona).2 = 2
        ∧ ∀ second, generate 1 = some second →
            rewrite_content (some generate) similarity threshold original persona
              = (Except.ok ⟨second, similarity original second, persona,
                  (pyWords second).length,
                  decide (similarity original second < threshold)⟩, 2)) := by
  constructor
  · intro hle
    simp only [rewrite_content, h0, hne, if_false, if_neg (not_lt.2 hle), ite_false]
    rfl
  · intro hgt
    constructor
    · simp only [rewrite_content, h0, hne, if_false, if_pos hgt, ite_false]
      cases hg : generate 1 <;> simp [hg]
    · intro second hsecond
      simp only [rewrite_content, h0, hne, if_false, if_pos hgt, hsecond, ite_false]
      rfl

/-- Witness for C3: a first rewrite judged maximally similar forces exactly
one retry, compared against the original. -/
theorem rewrite_retry_invariant_witness :
    (rewrite_content (some c3Capability) alwaysOne (3/10) ("orig").data "games").2 = 2
    ∧ rewrite_content (some c3Capability) alwaysOne (3/10) ("orig").data "games"
        = (Except.ok ⟨("texto completamente novo").data,
            alwaysOne ("orig").data ("texto completamente novo").data, "games",
            (pyWords ("texto completamente novo").data).length,
            decide (alwaysOne ("orig").data ("texto completamente novo").data < 3/10)⟩, 2) := by
  have h := (rewrite_retry_invariant c3Capability alwaysOne (3/10) ("orig").data "games"
    ("texto reescrito uma vez").data rfl (by decide)).2 (by norm_num [alwaysOne])
  exact ⟨h.1, h.2 ("texto completamente novo").data rfl⟩

/-! ## C1: behaviour when the rewrite capability fails or is missing -/

/-- C1 (amended): when no rewrite capability is configured, `rewrite_content`
raises `ValueError` without making any capability call, and when the single
configured capability call fails (returns `None`), the `ValueError` raised
after one call propagates to the caller (the `except` clause re-raises).  No
local fallback transformation exists and no fallback-marked result is
produced. -/
theorem rewrite_failure_raises (similarity : Str → Str → ℚ) (threshold : ℚ)
    (original : Str) (persona : String) :
    rewrite_content none similarity threshold original persona
      = (Except.error "Nenhum serviço de IA configurado", 0)
    ∧ ∀ generate : Nat → Option Str, generate 0 = none →
        rewrite_content (some generate) similarity threshold original persona
          = (Except.error "Falha na reescrita do conteúdo", 1) := by
  refine ⟨rfl, fun generate hg => ?_⟩
  simp only [rewrite_content, hg]

/-- Witness for C1 (amended): a capability that fails on its first call. -/
theorem rewrite_failure_raises_witness :
    rewrite_content (some fun _ => none) (fun _ _ => 0) (3/10) ("t").data "games"
      = (Except.error "Falha na reescrita do conteúdo", 1) :=
  (rewrite_failure_raises (fun _ _ => 0) (3/10) ("t").data "games").2 (fun _ => none) rfl

/-- C1 counterexample: with no capability configured, the rewrite operation
propagates an exception (`ValueError("Nenhum serviço de IA configurado")`) to
the caller instead of returning a fallback-marked `RewriteResult`. -/
theorem rewrite_no_capability_counterexample :
    rewrite_content none (fun _ _ => 0) (3/10) ("texto original").data "games"
      = (Except.error "Nenhum serviço de IA configurado", 0)
    ∧ ∀ out : RewriteOutput,
        (rewrite_content none (fun _ _ => 0) (3/10) ("texto original").data "games").1
          ≠ Except.ok out := by
  exact ⟨rfl, fun out h => Except.noConfusion h⟩

/-! ## C6: the composite final score -/

/-- C6: the composite score is the 0.4/0.3/0.2/0.1-weighted sum of relevance,
derived quality, SEO and originality (1 − similarity), clamped to at most
1.0, and for sub-score inputs in range it lies in [0, 1]. -/
theorem composite_formula_and_range (relevance_score : ℚ) (word_count : Nat)
    (similarity_score seo_score : ℚ)
    (hr : 0 ≤ relevance_score ∧ relevance_score ≤ 1)
    (hsim : 0 ≤ similarity_score ∧ similarity_score ≤ 1)
    (hseo : 0 ≤ seo_score ∧ seo_score ≤ 1) :
    calculate_final_score relevance_score word_count similarity_score seo_score
      = min (relevance_score * (4/10)
            + (min ((word_count : ℚ) / 500) 1 * (7/10) + 3/10) * (3/10)
            + seo_score * (2/10) + (1 - similarity_score) * (1/10)) 1
    ∧ 0 ≤ calculate_final_score relevance_score word_count similarity_score seo_score
    ∧ calculate_final_score relevance_score word_count similarity_score seo_score ≤ 1 := by
  refine ⟨rfl, ?_, min_le_right _ _⟩
  have hq0 : 0 ≤ min ((word_count : ℚ) / 500) 1 := le_min (by positivity) (by norm_num)
  have hsum : 0 ≤ relevance_score * (4/10)
      + (min ((word_count : ℚ) / 500) 1 * (7/10) + 3/10) * (3/10)
      + seo_score * (2/10) + (1 - similarity_score) * (1/10) := by
    nlinarith [hr.1, hseo.1, hsim.2]
  exact le_min hsum (by norm_num)

/-- Witness for C6 at relevance 0.5, word count 250, similarity 0.25,
SEO 0.6. -/
theorem composite_formula_and_range_witness :
    calculate_final_score (1/2) 250 (1/4) (3/5)
      = min ((1/2 : ℚ) * (4/10)
            + (min ((250 : ℚ) / 500) 1 * (7/10) + 3/10) * (3/10)
            + (3/5) * (2/10) + (1 - 1/4) * (1/10)) 1
    ∧ 0 ≤ calculate_final_score (1/2) 250 (1/4) (3/5)
    ∧ calculate_final_score (1/2) 250 (1/4) (3/5) ≤ 1 :=
  composite_formula_and_range (1/2) 250 (1/4) (3/5)
    ⟨by norm_num, by norm_num⟩ ⟨by norm_num, by norm_num⟩ ⟨by norm_num, by norm_num⟩

/-! ## Sub-score range lemmas for the relevance scorer -/

theorem trending_keywords_nonneg : ∀ p ∈ trending_keywords, 0 ≤ p.2 := by
  intro p hp
  fin_cases hp <;> norm_num

theorem keyword_score_bounds (text : Str) :
    0 ≤ calculate_keyword_score text ∧ calculate_keyword_score text ≤ 1 := by
  unfold calculate_keyword_score
  refine ⟨le_min ?_ (by norm_num), min_le_right _ _⟩
  split
  · apply div_nonneg
    · apply List.sum_nonneg
      intro x hx
      obtain ⟨p, hpmem, rfl⟩ := List.mem_map.1 hx
      exact trending_keywords_nonneg p (List.mem_of_mem_filter hpmem)
    · positivity
  · norm_num

theorem seasonal_keywords_nonneg :
    ∀ q ∈ seasonal_keywords, ∀ p ∈ q.2, 0 ≤ p.2 := by
  intro q hq
  fin_cases hq <;> (intro p hp; fin_cases hp <;> norm_num)

theorem seasonal_score_bounds (text : Str) (date : PyDateTime) :
    0 ≤ calculate_seasonal_score text date ∧ calculate_seasonal_score text date ≤ 1 := by
  unfold calculate_seasonal_score
  cases htab : dictGet seasonal_keywords (portugueseMonth date.month) with
  | none => norm_num
  | some table =>
    obtain ⟨q, hqmem, hqv⟩ := dictGet_eq_some_mem htab
    dsimp only
    split_ifs with h1 h2
    · norm_num
    · refine ⟨le_min ?_ (by norm_num), min_le_right _ _⟩
      apply div_nonneg
      · apply List.sum_nonneg
        intro x hx
        obtain ⟨p, hpmem, rfl⟩ := List.mem_map.1 hx
        exact seasonal_keywords_nonneg q hqmem p (hqv ▸ List.mem_of_mem_filter hpmem)
      · positivity
    · norm_num

theorem category_weights_mem_unit : ∀ p ∈ category_weights, 0 ≤ p.2 ∧ p.2 ≤ 1 := by
  intro p hp
  fin_cases hp <;> norm_num

theorem category_score_bounds (category : Str) :
    0 ≤ calculate_category_score category ∧ calculate_category_score category ≤ 1 := by
  unfold calculate_category_score
  rcases hcat : dictGet category_weights
      ((pyLower category).map fun c => if c = ' ' then '-' else c) with - | v
  · norm_num
  · obtain ⟨p, hpmem, hpv⟩ := dictGet_eq_some_mem hcat
    simpa [hpv] using category_weights_mem_unit p hpmem

theorem freshness_score_bounds (age_hours : ℚ) :
    0 ≤ calculate_freshness_score age_hours ∧ calculate_freshness_score age_hours ≤ 1 := by
  unfold calculate_freshness_score
  split_ifs <;> norm_num

theorem engaging_words_nonneg : ∀ p ∈ engaging_words, 0 ≤ p.2 := by
  intro p hp
  fin_cases hp <;> norm_num

theorem engagement_score_bounds (title category : Str) :
    0 ≤ estimate_engagement_score title category
    ∧ estimate_engagement_score title category ≤ 1 := by
  unfold estimate_engagement_score
  refine ⟨le_min ?_ (by norm_num), min_le_right _ _⟩
  have hsum : 0 ≤ ((engaging_words.filter fun w => pyContains (pyLower title) w.1).map
      fun w => w.2 * (1/10)).sum := by
    apply List.sum_nonneg
    intro x hx
    obtain ⟨p, hpmem, rfl⟩ := List.mem_map.1 hx
    have := engaging_words_nonneg p (List.mem_of_mem_filter hpmem)
    positivity
  split_ifs <;> linarith

theorem relevance_bounds (title content category : Str)
    (published_date : Option PyDateLike) (now : PyDateTime) :
    0 ≤ calculate_relevance title content category published_date now
    ∧ calculate_relevance title content category published_date now ≤ 1 := by
  unfold calculate_relevance calculate_relevance_body
  rcases (if pyDateFalsy published_date then PyDateLike.dt now
          else published_date.getD (PyDateLike.dt now)) with d | s
  · simp only
    constructor
    · apply le_min _ (by norm_num)
      have h1 := keyword_score_bounds (pyLower (title ++ ' ' :: content))
      have h2 := seasonal_score_bounds (pyLower (title ++ ' ' :: content)) d
      have h3 := category_score_bounds category
      have h4 := freshness_score_bounds (now.epochHours - d.epochHours)
      have h5 := engagement_score_bounds title category
      nlinarith [h1.1, h2.1, h3.1, h4.1, h5.1]
    · exact min_le_right _ _
  · norm_num

/-! ## C8: the relevance formula and its sub-score characterizations -/

theorem trending_keywords_le_one : ∀ p ∈ trending_keywords, p.2 ≤ 1 := by
  intro p hp
  fin_cases hp <;> norm_num

/-- C8: for every input, the relevance score is the weighted sum
0.3·keyword + 0.2·seasonal + 0.2·category + 0.15·freshness + 0.15·engagement
clamped to 1; the keyword sub-score is the arithmetic mean of the matched
trending-keyword weights when at least one matches (every table weight is at
most 0.95, so the source's cap at 1 never binds) and defaults to 0.3 when
none matches; the category sub-score is the static table weight when the
normalized category is present and 0.5 for unknown categories. -/
theorem relevance_weighted_formula (title content category : Str) (d now : PyDateTime) :
    calculate_relevance title content category (some (PyDateLike.dt d)) now
      = min (calculate_keyword_score (pyLower (title ++ ' ' :: content)) * (3/10)
            + calculate_seasonal_score (pyLower (title ++ ' ' :: content)) d * (2/10)
            + calculate_category_score category * (2/10)
            + calculate_freshness_score (now.epochHours - d.epochHours) * (15/100)
            + estimate_engagement_score title category * (15/100)) 1
    ∧ ((trending_keywords.filter fun kw =>
          pyContains (pyLower (title ++ ' ' :: content)) (pyLower kw.1)) = [] →
        calculate_keyword_score (pyLower (title ++ ' ' :: content)) = 3/10)
    ∧ ((trending_keywords.filter fun kw =>
          pyContains (pyLower (title ++ ' ' :: content)) (pyLower kw.1)) ≠ [] →
        calculate_keyword_score (pyLower (title ++ ' ' :: content))
          = ((trending_keywords.filter fun kw =>
                pyContains (pyLower (title ++ ' ' :: content)) (pyLower kw.1)).map
              fun kw => kw.2).sum
            / (((trending_keywords.filter fun kw =>
                pyContains (pyLower (title ++ ' ' :: content)) (pyLower kw.1)).length : ℚ)))
    ∧ (dictGet category_weights
        ((pyLower category).map fun c => if c = ' ' then '-' else c) = none →
        calculate_category_score category = 1/2)
    ∧ ∀ w, dictGet category_weights
        ((pyLower category).map fun c => if c = ' ' then '-' else c) = some w →
        calculate_category_score category = w := by
  refine ⟨rfl, ?_, ?_, ?_, ?_⟩
  · intro hfil
    simp only [calculate_keyword_score]
    rw [hfil]
    norm_num
  · intro hne
    simp only [calculate_keyword_score]
    have hlen : (trending_keywords.filter fun kw =>
        pyContains (pyLower (title ++ ' ' :: content)) (pyLower kw.1)).length ≠ 0 :=
      fun h0 => hne (List.length_eq_zero.1 h0)
    rw [if_pos hlen]
    apply min_eq_left
    have hpos : 0 < ((trending_keywords.filter fun kw =>
        pyContains (pyLower (title ++ ' ' :: content)) (pyLower kw.1)).length : ℚ) := by
      exact_mod_cast Nat.pos_of_ne_zero hlen
    rw [div_le_one hpos]
    have hle : ∀ x ∈ (trending_keywords.filter fun kw =>
        pyContains (pyLower (title ++ ' ' :: content)) (pyLower kw.1)).map
          fun kw => kw.2, x ≤ (1 : ℚ) := by
      intro x hx
      obtain ⟨p, hp, rfl⟩ := List.mem_map.1 hx
      exact trending_keywords_le_one p (List.mem_of_mem_filter hp)
    have hcard := List.sum_le_card_nsmul _ 1 hle
    simpa [List.length_map, nsmul_eq_mul] using hcard
  · intro hcat
    simp only [calculate_category_score]
    rw [hcat]
    rfl
  · intro w hcat
    simp only [calculate_category_score]
    rw [hcat]
    rfl

/-- Witness for C8 at a text matching two trending keywords and the known
category `games`: the keyword sub-score is the mean (0.85 + 0.80)/2 of the
matched weights and the category sub-score is the table's 1.0. -/
theorem relevance_weighted_formula_witness :
    calculate_keyword_score (pyLower (("netflix").data ++ ' ' :: ("marvel e series").data))
      = 33/40
    ∧ calculate_category_score ("games").data = 1 := by
  have hfil : (trending_keywords.filter fun kw =>
      pyContains (pyLower (("netflix").data ++ ' ' :: ("marvel e series").data))
        (pyLower kw.1))
      = [(("marvel").data, (85 : ℚ)/100), (("netflix").data, (80 : ℚ)/100)] := by
    simp only [trending_keywords]
    rw [List.filter_cons, if_neg (by decide), List.filter_cons, if_neg (by decide),
        List.filter_cons, if_neg (by decide), List.filter_cons, if_neg (by decide),
        List.filter_cons, if_neg (by decide), List.filter_cons, if_pos (by decide),
        List.filter_cons, if_pos (by decide), List.filter_cons, if_neg (by decide),
        List.filter_cons, if_neg (by decide), List.filter_cons, if_neg (by decide),
        List.filter_cons, if_neg (by decide), List.filter_cons, if_neg (by decide),
        List.filter_cons, if_neg (by decide), List.filter_cons, if_neg (by decide),
        List.filter_cons, if_neg (by decide), List.filter_cons, if_neg (by decide),
        List.filter_nil]
  have h := relevance_weighted_formula ("netflix").data ("marvel e series").data
    ("games").data ⟨0, 1⟩ ⟨0, 1⟩
  constructor
  · have h3 := h.2.2.1 (by rw [hfil]; simp)
    rw [hfil] at h3
    rw [h3]
    simp only [List.map_cons, List.map_nil, List.sum_cons, List.sum_nil,
               List.length_cons, List.length_nil]
    norm_num
  · exact h.2.2.2.2 1 rfl

/-! ## C9: relevance stays in [0,1]; future timestamps are fresh -/

/-- C9: the relevance score is always in [0, 1] (even for malformed
`published_date` inputs), and a `published_date` in the future does not make
the computation fail: the body returns a value and the freshness sub-score is
the ≤1h band's 1.0 (the age in hours is negative). -/
theorem relevance_range_and_future_freshness (title content category : Str)
    (published_date : Option PyDateLike) (d now : PyDateTime)
    (hfuture : now.epochHours < d.epochHours) :
    (0 ≤ calculate_relevance title content category published_date now
      ∧ calculate_relevance title content category published_date now ≤ 1)
    ∧ (∃ v, calculate_relevance_body title content category
          (some (PyDateLike.dt d)) now = Except.ok v)
    ∧ calculate_freshness_score (now.epochHours - d.epochHours) = 1 := by
  refine ⟨relevance_bounds title content category published_date now, ⟨_, rfl⟩, ?_⟩
  unfold calculate_freshness_score
  rw [if_pos (by linarith)]

/-- Witness for C9 with a publication timestamp one hour in the future. -/
theorem relevance_range_and_future_freshness_witness :
    (0 ≤ calculate_relevance ("t").data ("c").data ("games").data
        (some (PyDateLike.dt ⟨1, 1⟩)) ⟨0, 1⟩
      ∧ calculate_relevance ("t").data ("c").data ("games").data
          (some (PyDateLike.dt ⟨1, 1⟩)) ⟨0, 1⟩ ≤ 1)
    ∧ (∃ v, calculate_relevance_body ("t").data ("c").data ("games").data
          (some (PyDateLike.dt ⟨1, 1⟩)) ⟨0, 1⟩ = Except.ok v)
    ∧ calculate_freshness_score ((0 : ℚ) - (1 : ℚ)) = 1 :=
  relevance_range_and_future_freshness ("t").data ("c").data ("games").data
    (some (PyDateLike.dt ⟨1, 1⟩)) ⟨1, 1⟩ ⟨0, 1⟩ (by norm_num)

/-! ## C5: final scores attached by the batch operations -/

/-- C5: every call to `_process_single_article` returns `None` — its first
statement raises `TypeError` because `rewrite_content` is called with the
keyword arguments `title`/`content` that its signature does not declare, and
the surrounding `except` swallows the error — so the batch operations
(general articles, news, featured) emit no items at all, and the claim that
every emitted item's final score is a float in [0, 1] holds vacuously. -/
theorem emitted_final_scores_in_range (items : List ScrapedItem) (persona : String)
    (category : Str) (min_score : ℚ) :
    (∀ item : ScrapedItem, process_single_article item persona category = none)
    ∧ batch_emitted_final_scores items persona category min_score = []
    ∧ ∀ s ∈ batch_emitted_final_scores items persona category min_score,
        0 ≤ s ∧ s ≤ 1 := by
  have hempty : batch_emitted_final_scores items persona category min_score = [] := by
    unfold batch_emitted_final_scores process_single_article
    rw [List.filterMap_eq_nil_iff.2 fun item _ => rfl]
    rfl
  refine ⟨fun _ => rfl, hempty, ?_⟩
  intro s hs
  rw [hempty] at hs
  exact absurd hs (List.not_mem_nil s)

/-- Witness for C5 at a concrete one-item batch. -/
theorem emitted_final_scores_in_range_witness :
    process_single_article ⟨("t").data, ("c").data⟩ "games" ("games").data = none
    ∧ batch_emitted_final_scores [⟨("t").data, ("c").data⟩] "games" ("games").data (7/10)
        = [] :=
  ⟨(emitted_final_scores_in_range [⟨("t").data, ("c").data⟩] "games" ("games").data
      (7/10)).1 ⟨("t").data, ("c").data⟩,
   (emitted_final_scores_in_range [⟨("t").data, ("c").data⟩] "games" ("games").data
      (7/10)).2.1⟩

end GenContent
